import Mathlib

/-!
Verification of the Meteora DAMM "claim LP token" instruction of the
virtual-curve program
(src/programs/virtual-curve/src/instructions/migration/meteora_damm/meteora_damm_claim_lp_token.rs).

The handler `handle_migrate_meteora_damm_claim_lp_token` is embedded as a
pure function over an explicit ledger state.  The surrounding account
types (`MeteoraDammMigrationMetadata`, `MigrationProgress`, the
`PoolError` codes and the flag accessors) are declared by the repository
outside the provided source tree; they are modelled from the spec where
so noted.  The SPL token transfer is an external collaborator and is
modelled by a boolean oracle on the requested amount; the amounts handed
to it are recorded so that "no transfer was invoked" is expressible.
-/

/-- Account identities (Solana public keys); only equality is ever used
on them, so they are modelled as natural numbers. -/
abbrev Pubkey := Nat

/-- Modelled from the spec: `MigrationProgress` (declared in the
repository's state module, outside the provided sources) is an
enumerated stage marker for the pool's migration lifecycle; the handler
only compares it against the `CreatedPool` checkpoint. -/
inductive MigrationProgress where
  | Initialized
  | LockedVesting
  | CreatedPool
  deriving DecidableEq, Repr

/-- Modelled from the spec: the `MeteoraDammMigrationMetadata` account
(declared outside the provided sources) is the migration claim ledger:
two beneficiary identities, two entitled amounts, and two independent
claimed flags.  The `u64` amounts are modelled as `Nat`, since the
handler only tests them against zero and passes them through. -/
structure MeteoraDammMigrationMetadata where
  lp_mint : Pubkey
  virtual_pool : Pubkey
  partner : Pubkey
  pool_creator : Pubkey
  partner_lp : Nat
  creator_lp : Nat
  partner_claimed : Bool
  creator_claimed : Bool
  deriving DecidableEq, Repr

/-- Modelled from the spec: accessor for the partner claimed flag
(`is_partner_claim_lp`, declared outside the provided sources). -/
def MeteoraDammMigrationMetadata.is_partner_claim_lp
    (m : MeteoraDammMigrationMetadata) : Bool :=
  m.partner_claimed

/-- Modelled from the spec: accessor for the creator claimed flag
(`is_creator_claim_lp`, declared outside the provided sources). -/
def MeteoraDammMigrationMetadata.is_creator_claim_lp
    (m : MeteoraDammMigrationMetadata) : Bool :=
  m.creator_claimed

/-- Modelled from the spec: `set_partner_claim_status` (declared outside
the provided sources) flips the partner claimed flag to true and touches
nothing else. -/
def MeteoraDammMigrationMetadata.set_partner_claim_status
    (m : MeteoraDammMigrationMetadata) : MeteoraDammMigrationMetadata :=
  { m with partner_claimed := true }

/-- Modelled from the spec: `set_creator_claim_status` (declared outside
the provided sources) flips the creator claimed flag to true and touches
nothing else. -/
def MeteoraDammMigrationMetadata.set_creator_claim_status
    (m : MeteoraDammMigrationMetadata) : MeteoraDammMigrationMetadata :=
  { m with creator_claimed := true }

/-- Errors the handler can surface.  `NotPermitToDoThisAction` and
`InvalidOwnerAccount` are the two `PoolError` codes named in the source;
`TransferFailed` stands for any error propagated out of the delegated
SPL token transfer by the `?` operator. -/
inductive ClaimError where
  | NotPermitToDoThisAction
  | InvalidOwnerAccount
  | TransferFailed
  deriving DecidableEq, Repr

/-- Raw outcome of running the handler body: on success the updated
ledger and the amount moved; the second component lists every amount
that was handed to the transfer collaborator (so a pre-transfer failure
is distinguishable from a failed transfer). -/
def handle_migrate_meteora_damm_claim_lp_token
    (migration_progress : MigrationProgress) (owner : Pubkey)
    (m : MeteoraDammMigrationMetadata) (transfer_ok : Nat → Bool) :
    Except ClaimError (MeteoraDammMigrationMetadata × Nat) × List Nat :=
  if migration_progress = MigrationProgress.CreatedPool then
    if owner = m.partner then
      if m.is_partner_claim_lp then
        (Except.error ClaimError.NotPermitToDoThisAction, [])
      else if m.partner_lp = 0 then
        (Except.error ClaimError.NotPermitToDoThisAction, [])
      else
        let m2 := m.set_partner_claim_status
        if transfer_ok m2.partner_lp then
          (Except.ok (m2, m2.partner_lp), [m2.partner_lp])
        else
          (Except.error ClaimError.TransferFailed, [m2.partner_lp])
    else if owner = m.pool_creator then
      if m.is_creator_claim_lp then
        (Except.error ClaimError.NotPermitToDoThisAction, [])
      else if m.creator_lp = 0 then
        (Except.error ClaimError.NotPermitToDoThisAction, [])
      else
        let m2 := m.set_creator_claim_status
        if transfer_ok m2.creator_lp then
          (Except.ok (m2, m2.creator_lp), [m2.creator_lp])
        else
          (Except.error ClaimError.TransferFailed, [m2.creator_lp])
    else
      (Except.error ClaimError.InvalidOwnerAccount, [])
  else
    (Except.error ClaimError.NotPermitToDoThisAction, [])

/-- Committed outcome of one claim invocation. -/
structure InvocationResult where
  ledger : MeteoraDammMigrationMetadata
  result : Except ClaimError Nat
  transfers : List Nat
  deriving Repr

/-- Modelled from the spec: the host rolls back all state changes of a
failed invocation, the ledger flag included (spec section 5), so the
committed ledger after an invocation is the handler's output ledger on
success and the untouched input ledger on any error. -/
def claim_lp (migration_progress : MigrationProgress) (owner : Pubkey)
    (m : MeteoraDammMigrationMetadata) (transfer_ok : Nat → Bool) :
    InvocationResult :=
  match handle_migrate_meteora_damm_claim_lp_token migration_progress owner m transfer_ok with
  | (Except.ok (m2, amount), tr) => ⟨m2, Except.ok amount, tr⟩
  | (Except.error e, tr) => ⟨m, Except.error e, tr⟩

/-- One invocation viewed as a step on the committed ledger state. -/
def claim_step (m : MeteoraDammMigrationMetadata)
    (c : MigrationProgress × Pubkey × (Nat → Bool)) :
    MeteoraDammMigrationMetadata :=
  (claim_lp c.1 c.2.1 m c.2.2).ledger

/-- Committed ledger after a sequence of claim invocations. -/
def run_claims (m : MeteoraDammMigrationMetadata)
    (cs : List (MigrationProgress × Pubkey × (Nat → Bool))) :
    MeteoraDammMigrationMetadata :=
  cs.foldl claim_step m

/-- A sample transfer oracle that always succeeds. -/
def transfer_always : Nat → Bool := fun _ => true

/-- A sample transfer oracle that always fails. -/
def transfer_never : Nat → Bool := fun _ => false

/-- A sample ledger with distinct partner and creator identities. -/
def sampleLedger : MeteoraDammMigrationMetadata :=
  ⟨10, 11, 1, 2, 500, 300, false, false⟩

/-! Branch equations for `claim_lp`. -/

lemma claim_lp_progress_ne {p : MigrationProgress} (o : Pubkey)
    (m : MeteoraDammMigrationMetadata) (t : Nat → Bool)
    (hp : p ≠ MigrationProgress.CreatedPool) :
    claim_lp p o m t = ⟨m, Except.error ClaimError.NotPermitToDoThisAction, []⟩ := by
  simp [claim_lp, handle_migrate_meteora_damm_claim_lp_token, hp]

lemma claim_lp_unauthorized {o : Pubkey} {m : MeteoraDammMigrationMetadata}
    (t : Nat → Bool) (h1 : o ≠ m.partner) (h2 : o ≠ m.pool_creator) :
    claim_lp MigrationProgress.CreatedPool o m t
      = ⟨m, Except.error ClaimError.InvalidOwnerAccount, []⟩ := by
  simp [claim_lp, handle_migrate_meteora_damm_claim_lp_token, h1, h2]

lemma claim_lp_partner_already {o : Pubkey} {m : MeteoraDammMigrationMetadata}
    (t : Nat → Bool) (ho : o = m.partner) (hc : m.partner_claimed = true) :
    claim_lp MigrationProgress.CreatedPool o m t
      = ⟨m, Except.error ClaimError.NotPermitToDoThisAction, []⟩ := by
  simp [claim_lp, handle_migrate_meteora_damm_claim_lp_token,
    MeteoraDammMigrationMetadata.is_partner_claim_lp, ho, hc]

lemma claim_lp_partner_zero {o : Pubkey} {m : MeteoraDammMigrationMetadata}
    (t : Nat → Bool) (ho : o = m.partner) (hc : m.partner_claimed = false)
    (hz : m.partner_lp = 0) :
    claim_lp MigrationProgress.CreatedPool o m t
      = ⟨m, Except.error ClaimError.NotPermitToDoThisAction, []⟩ := by
  simp [claim_lp, handle_migrate_meteora_damm_claim_lp_token,
    MeteoraDammMigrationMetadata.is_partner_claim_lp, ho, hc, hz]

lemma claim_lp_partner_tfail {o : Pubkey} {m : MeteoraDammMigrationMetadata}
    {t : Nat → Bool} (ho : o = m.partner) (hc : m.partner_claimed = false)
    (hz : m.partner_lp ≠ 0) (ht : t m.partner_lp = false) :
    claim_lp MigrationProgress.CreatedPool o m t
      = ⟨m, Except.error ClaimError.TransferFailed, [m.partner_lp]⟩ := by
  simp [claim_lp, handle_migrate_meteora_damm_claim_lp_token,
    MeteoraDammMigrationMetadata.is_partner_claim_lp,
    MeteoraDammMigrationMetadata.set_partner_claim_status, ho, hc, hz, ht]

lemma claim_lp_partner_ok {o : Pubkey} {m : MeteoraDammMigrationMetadata}
    {t : Nat → Bool} (ho : o = m.partner) (hc : m.partner_claimed = false)
    (hz : m.partner_lp ≠ 0) (ht : t m.partner_lp = true) :
    claim_lp MigrationProgress.CreatedPool o m t
      = ⟨m.set_partner_claim_status, Except.ok m.partner_lp, [m.partner_lp]⟩ := by
  simp [claim_lp, handle_migrate_meteora_damm_claim_lp_token,
    MeteoraDammMigrationMetadata.is_partner_claim_lp,
    MeteoraDammMigrationMetadata.set_partner_claim_status, ho, hc, hz, ht]

lemma claim_lp_creator_already {o : Pubkey} {m : MeteoraDammMigrationMetadata}
    (t : Nat → Bool) (hop : o ≠ m.partner) (ho : o = m.pool_creator)
    (hc : m.creator_claimed = true) :
    claim_lp MigrationProgress.CreatedPool o m t
      = ⟨m, Except.error ClaimError.NotPermitToDoThisAction, []⟩ := by
  subst ho
  simp [claim_lp, handle_migrate_meteora_damm_claim_lp_token,
    MeteoraDammMigrationMetadata.is_creator_claim_lp, hop, hc]

lemma claim_lp_creator_zero {o : Pubkey} {m : MeteoraDammMigrationMetadata}
    (t : Nat → Bool) (hop : o ≠ m.partner) (ho : o = m.pool_creator)
    (hc : m.creator_claimed = false) (hz : m.creator_lp = 0) :
    claim_lp MigrationProgress.CreatedPool o m t
      = ⟨m, Except.error ClaimError.NotPermitToDoThisAction, []⟩ := by
  subst ho
  simp [claim_lp, handle_migrate_meteora_damm_claim_lp_token,
    MeteoraDammMigrationMetadata.is_creator_claim_lp, hop, hc, hz]

lemma claim_lp_creator_tfail {o : Pubkey} {m : MeteoraDammMigrationMetadata}
    {t : Nat → Bool} (hop : o ≠ m.partner) (ho : o = m.pool_creator)
    (hc : m.creator_claimed = false) (hz : m.creator_lp ≠ 0)
    (ht : t m.creator_lp = false) :
    claim_lp MigrationProgress.CreatedPool o m t
      = ⟨m, Except.error ClaimError.TransferFailed, [m.creator_lp]⟩ := by
  subst ho
  simp [claim_lp, handle_migrate_meteora_damm_claim_lp_token,
    MeteoraDammMigrationMetadata.is_creator_claim_lp,
    MeteoraDammMigrationMetadata.set_creator_claim_status, hop, hc, hz, ht]

lemma claim_lp_creator_ok {o : Pubkey} {m : MeteoraDammMigrationMetadata}
    {t : Nat → Bool} (hop : o ≠ m.partner) (ho : o = m.pool_creator)
    (hc : m.creator_claimed = false) (hz : m.creator_lp ≠ 0)
    (ht : t m.creator_lp = true) :
    claim_lp MigrationProgress.CreatedPool o m t
      = ⟨m.set_creator_claim_status, Except.ok m.creator_lp, [m.creator_lp]⟩ := by
  subst ho
  simp [claim_lp, handle_migrate_meteora_damm_claim_lp_token,
    MeteoraDammMigrationMetadata.is_creator_claim_lp,
    MeteoraDammMigrationMetadata.set_creator_claim_status, hop, hc, hz, ht]

/-- Full case analysis of one committed invocation. -/
lemma claim_lp_cases (p : MigrationProgress) (o : Pubkey)
    (m : MeteoraDammMigrationMetadata) (t : Nat → Bool) :
    claim_lp p o m t = ⟨m, Except.error ClaimError.NotPermitToDoThisAction, []⟩
    ∨ claim_lp p o m t = ⟨m, Except.error ClaimError.InvalidOwnerAccount, []⟩
    ∨ (claim_lp p o m t = ⟨m, Except.error ClaimError.TransferFailed, [m.partner_lp]⟩
        ∧ o = m.partner)
    ∨ (claim_lp p o m t = ⟨m, Except.error ClaimError.TransferFailed, [m.creator_lp]⟩
        ∧ o ≠ m.partner ∧ o = m.pool_creator)
    ∨ (claim_lp p o m t
          = ⟨m.set_partner_claim_status, Except.ok m.partner_lp, [m.partner_lp]⟩
        ∧ o = m.partner ∧ m.partner_claimed = false ∧ m.partner_lp ≠ 0)
    ∨ (claim_lp p o m t
          = ⟨m.set_creator_claim_status, Except.ok m.creator_lp, [m.creator_lp]⟩
        ∧ o ≠ m.partner ∧ o = m.pool_creator ∧ m.creator_claimed = false
        ∧ m.creator_lp ≠ 0) := by
  by_cases hp : p = MigrationProgress.CreatedPool
  · subst hp
    by_cases ho : o = m.partner
    · by_cases hc : m.partner_claimed
      · exact Or.inl (claim_lp_partner_already t ho hc)
      · by_cases hz : m.partner_lp = 0
        · exact Or.inl (claim_lp_partner_zero t ho (by simpa using hc) hz)
        · by_cases ht : t m.partner_lp
          · exact Or.inr (Or.inr (Or.inr (Or.inr (Or.inl
              ⟨claim_lp_partner_ok ho (by simpa using hc) hz ht, ho,
                by simpa using hc, hz⟩))))
          · exact Or.inr (Or.inr (Or.inl
              ⟨claim_lp_partner_tfail ho (by simpa using hc) hz
                (by simpa using ht), ho⟩))
    · by_cases hoc : o = m.pool_creator
      · by_cases hc : m.creator_claimed
        · exact Or.inl (claim_lp_creator_already t ho hoc hc)
        · by_cases hz : m.creator_lp = 0
          · exact Or.inl (claim_lp_creator_zero t ho hoc (by simpa using hc) hz)
          · by_cases ht : t m.creator_lp
            · exact Or.inr (Or.inr (Or.inr (Or.inr (Or.inr
                ⟨claim_lp_creator_ok ho hoc (by simpa using hc) hz ht, ho, hoc,
                  by simpa using hc, hz⟩))))
            · exact Or.inr (Or.inr (Or.inr (Or.inl
                ⟨claim_lp_creator_tfail ho hoc (by simpa using hc) hz
                  (by simpa using ht), ho, hoc⟩)))
      · exact Or.inr (Or.inl (claim_lp_unauthorized t ho hoc))
  · exact Or.inl (claim_lp_progress_ne o m t hp)

/-- Identities and amounts are never altered by an invocation. -/
lemma claim_lp_preserves_fields (p : MigrationProgress) (o : Pubkey)
    (m : MeteoraDammMigrationMetadata) (t : Nat → Bool) :
    (claim_lp p o m t).ledger.lp_mint = m.lp_mint
    ∧ (claim_lp p o m t).ledger.virtual_pool = m.virtual_pool
    ∧ (claim_lp p o m t).ledger.partner = m.partner
    ∧ (claim_lp p o m t).ledger.pool_creator = m.pool_creator
    ∧ (claim_lp p o m t).ledger.partner_lp = m.partner_lp
    ∧ (claim_lp p o m t).ledger.creator_lp = m.creator_lp := by
  rcases claim_lp_cases p o m t with h | h | ⟨h, -⟩ | ⟨h, -⟩ | ⟨h, -⟩ | ⟨h, -⟩ <;>
    rw [h] <;>
    simp [MeteoraDammMigrationMetadata.set_partner_claim_status,
      MeteoraDammMigrationMetadata.set_creator_claim_status]

/-- An already-claimed partner is rejected at any migration progress
(the progress check and the claimed-flag check surface the same code). -/
lemma claim_lp_partner_already_any (p : MigrationProgress) {o : Pubkey}
    {m : MeteoraDammMigrationMetadata} (t : Nat → Bool)
    (ho : o = m.partner) (hc : m.partner_claimed = true) :
    claim_lp p o m t = ⟨m, Except.error ClaimError.NotPermitToDoThisAction, []⟩ := by
  by_cases hp : p = MigrationProgress.CreatedPool
  · subst hp; exact claim_lp_partner_already t ho hc
  · exact claim_lp_progress_ne o m t hp

/-- An already-claimed creator is rejected at any migration progress. -/
lemma claim_lp_creator_already_any (p : MigrationProgress) {o : Pubkey}
    {m : MeteoraDammMigrationMetadata} (t : Nat → Bool)
    (hop : o ≠ m.partner) (ho : o = m.pool_creator)
    (hc : m.creator_claimed = true) :
    claim_lp p o m t = ⟨m, Except.error ClaimError.NotPermitToDoThisAction, []⟩ := by
  by_cases hp : p = MigrationProgress.CreatedPool
  · subst hp; exact claim_lp_creator_already t hop ho hc
  · exact claim_lp_progress_ne o m t hp

/-- Claim C1: each claimed flag only ever goes from false to true, and
once a role has claimed, every further invocation for that role fails
with the already-claimed rejection code and hands nothing to the
transfer collaborator. -/
theorem claim_c1_flags_monotone_and_reclaim_rejected
    (p p2 : MigrationProgress) (o : Pubkey)
    (m : MeteoraDammMigrationMetadata) (t t2 : Nat → Bool) :
    (m.partner_claimed = true → (claim_lp p o m t).ledger.partner_claimed = true)
    ∧ (m.creator_claimed = true → (claim_lp p o m t).ledger.creator_claimed = true)
    ∧ (o = m.partner → m.partner_claimed = true →
        claim_lp p o m t = ⟨m, Except.error ClaimError.NotPermitToDoThisAction, []⟩)
    ∧ (o ≠ m.partner → o = m.pool_creator → m.creator_claimed = true →
        claim_lp p o m t = ⟨m, Except.error ClaimError.NotPermitToDoThisAction, []⟩)
    ∧ (∀ a, o = m.partner → (claim_lp p o m t).result = Except.ok a →
        claim_lp p2 o (claim_lp p o m t).ledger t2
          = ⟨(claim_lp p o m t).ledger,
              Except.error ClaimError.NotPermitToDoThisAction, []⟩)
    ∧ (∀ a, o ≠ m.partner → (claim_lp p o m t).result = Except.ok a →
        claim_lp p2 o (claim_lp p o m t).ledger t2
          = ⟨(claim_lp p o m t).ledger,
              Except.error ClaimError.NotPermitToDoThisAction, []⟩) := by
  refine ⟨?_, ?_, ?_, ?_, ?_, ?_⟩
  · intro hc
    rcases claim_lp_cases p o m t with h | h | ⟨h, -⟩ | ⟨h, -⟩ | ⟨h, -, hc2, -⟩ | ⟨h, -⟩ <;>
      rw [h] <;>
      simp_all [MeteoraDammMigrationMetadata.set_partner_claim_status,
        MeteoraDammMigrationMetadata.set_creator_claim_status]
  · intro hc
    rcases claim_lp_cases p o m t with h | h | ⟨h, -⟩ | ⟨h, -⟩ | ⟨h, -⟩ | ⟨h, -, -, hc2, -⟩ <;>
      rw [h] <;>
      simp_all [MeteoraDammMigrationMetadata.set_partner_claim_status,
        MeteoraDammMigrationMetadata.set_creator_claim_status]
  · intro ho hc
    exact claim_lp_partner_already_any p t ho hc
  · intro hop ho hc
    exact claim_lp_creator_already_any p t hop ho hc
  · intro a ho hr
    rcases claim_lp_cases p o m t with h | h | ⟨h, -⟩ | ⟨h, hop, -⟩ | ⟨h, -, -, -⟩ | ⟨h, hop, -⟩
    · rw [h] at hr; simp at hr
    · rw [h] at hr; simp at hr
    · rw [h] at hr; simp at hr
    · rw [h] at hr; simp at hr
    · rw [h]
      exact claim_lp_partner_already_any p2 t2 ho rfl
    · exact absurd ho hop
  · intro a hop hr
    rcases claim_lp_cases p o m t with h | h | ⟨h, -⟩ | ⟨h, -⟩ | ⟨h, ho, -⟩ | ⟨h, -, hoc, -⟩
    · rw [h] at hr; simp at hr
    · rw [h] at hr; simp at hr
    · rw [h] at hr; simp at hr
    · rw [h] at hr; simp at hr
    · exact absurd ho hop
    · rw [h]
      exact claim_lp_creator_already_any p2 t2 hop hoc rfl

/-- Concrete instance of C1: after the partner has claimed, a second
partner claim is rejected with no transfer. -/
theorem claim_c1_witness :
    claim_lp MigrationProgress.CreatedPool 1
        sampleLedger.set_partner_claim_status transfer_always
      = ⟨sampleLedger.set_partner_claim_status,
          Except.error ClaimError.NotPermitToDoThisAction, []⟩ :=
  (claim_c1_flags_monotone_and_reclaim_rejected MigrationProgress.CreatedPool
    MigrationProgress.CreatedPool 1 sampleLedger.set_partner_claim_status
    transfer_always transfer_always).2.2.1 rfl rfl

/-- Claim C2: at any migration progress other than `CreatedPool`, every
claim fails with the not-eligible rejection code, the ledger is
unchanged and nothing is handed to the transfer collaborator. -/
theorem claim_c2_not_eligible_yet (p : MigrationProgress) (o : Pubkey)
    (m : MeteoraDammMigrationMetadata) (t : Nat → Bool)
    (hp : p ≠ MigrationProgress.CreatedPool) :
    claim_lp p o m t = ⟨m, Except.error ClaimError.NotPermitToDoThisAction, []⟩ :=
  claim_lp_progress_ne o m t hp

/-- Concrete instance of C2 at progress `Initialized`. -/
theorem claim_c2_witness :
    claim_lp MigrationProgress.Initialized 1 sampleLedger transfer_always
      = ⟨sampleLedger, Except.error ClaimError.NotPermitToDoThisAction, []⟩ :=
  claim_c2_not_eligible_yet MigrationProgress.Initialized 1 sampleLedger
    transfer_always (by decide)

/-- Claim C3: whenever any check fails, the committed ledger is exactly
the input ledger, and for every failure other than a failed transfer no
amount was handed to the transfer collaborator at all. -/
theorem claim_c3_failure_no_side_effect (p : MigrationProgress) (o : Pubkey)
    (m : MeteoraDammMigrationMetadata) (t : Nat → Bool) (e : ClaimError)
    (h : (claim_lp p o m t).result = Except.error e) :
    (claim_lp p o m t).ledger = m
    ∧ (e ≠ ClaimError.TransferFailed → (claim_lp p o m t).transfers = []) := by
  rcases claim_lp_cases p o m t with hc | hc | ⟨hc, -⟩ | ⟨hc, -, -⟩ | ⟨hc, -⟩ | ⟨hc, -⟩ <;>
    rw [hc] at h ⊢ <;> simp_all

/-- Concrete instance of C3: an unauthorized claim leaves the ledger
untouched and invokes no transfer. -/
theorem claim_c3_witness :
    (claim_lp MigrationProgress.CreatedPool 7 sampleLedger transfer_always).ledger
        = sampleLedger
    ∧ (ClaimError.InvalidOwnerAccount ≠ ClaimError.TransferFailed →
        (claim_lp MigrationProgress.CreatedPool 7 sampleLedger transfer_always).transfers
          = []) :=
  claim_c3_failure_no_side_effect MigrationProgress.CreatedPool 7 sampleLedger
    transfer_always ClaimError.InvalidOwnerAccount rfl

/-- Claim C4: when the transfer collaborator rejects the movement, the
whole invocation fails with the propagated transfer error and the
committed ledger still shows the resolved role's claimed flag false —
the pre-transfer flag flip is rolled back with the invocation. -/
theorem claim_c4_transfer_failure_rollback (o : Pubkey)
    (m : MeteoraDammMigrationMetadata) (t : Nat → Bool) :
    (o = m.partner → m.partner_claimed = false → m.partner_lp ≠ 0 →
      t m.partner_lp = false →
      claim_lp MigrationProgress.CreatedPool o m t
          = ⟨m, Except.error ClaimError.TransferFailed, [m.partner_lp]⟩
      ∧ (claim_lp MigrationProgress.CreatedPool o m t).ledger.partner_claimed = false)
    ∧ (o ≠ m.partner → o = m.pool_creator → m.creator_claimed = false →
        m.creator_lp ≠ 0 → t m.creator_lp = false →
        claim_lp MigrationProgress.CreatedPool o m t
            = ⟨m, Except.error ClaimError.TransferFailed, [m.creator_lp]⟩
        ∧ (claim_lp MigrationProgress.CreatedPool o m t).ledger.creator_claimed
            = false) := by
  constructor
  · intro ho hc hz ht
    refine ⟨claim_lp_partner_tfail ho hc hz ht, ?_⟩
    rw [claim_lp_partner_tfail ho hc hz ht]
    exact hc
  · intro hop ho hc hz ht
    refine ⟨claim_lp_creator_tfail hop ho hc hz ht, ?_⟩
    rw [claim_lp_creator_tfail hop ho hc hz ht]
    exact hc

/-- Concrete instance of C4: an eligible partner claim with a failing
transfer collaborator leaves the partner flag false. -/
theorem claim_c4_witness :
    claim_lp MigrationProgress.CreatedPool 1 sampleLedger transfer_never
        = ⟨sampleLedger, Except.error ClaimError.TransferFailed, [500]⟩
    ∧ (claim_lp MigrationProgress.CreatedPool 1 sampleLedger
        transfer_never).ledger.partner_claimed = false :=
  (claim_c4_transfer_failure_rollback 1 sampleLedger transfer_never).1 rfl rfl
    (by decide) rfl

/-- Counterexample to claim C5: two different failure conditions surface
the same error code.  The first invocation fails the migration-progress
check (progress `Initialized`, not the checkpoint), the second fails the
already-claimed check (checkpoint reached, matching partner, flag true),
and a third fails the zero-entitlement check — yet all three surface
`NotPermitToDoThisAction`. -/
theorem claim_c5_shared_error_code_counterexample :
    (claim_lp MigrationProgress.Initialized 1 sampleLedger transfer_always).result
        = Except.error ClaimError.NotPermitToDoThisAction
    ∧ (claim_lp MigrationProgress.CreatedPool 1
          sampleLedger.set_partner_claim_status transfer_always).result
        = Except.error ClaimError.NotPermitToDoThisAction
    ∧ (claim_lp MigrationProgress.CreatedPool 1
          ⟨10, 11, 1, 2, 0, 300, false, false⟩ transfer_always).result
        = Except.error ClaimError.NotPermitToDoThisAction
    ∧ MigrationProgress.Initialized ≠ MigrationProgress.CreatedPool
    ∧ sampleLedger.set_partner_claim_status.partner_claimed = true
    ∧ sampleLedger.partner_claimed = false :=
  ⟨rfl, rfl, rfl, by decide, rfl, rfl⟩

/-- Amended claim C5: the unauthorized-caller condition and a rejected
transfer surface their own distinct errors, but the not-eligible,
already-claimed and zero-entitlement conditions all share the single
code `NotPermitToDoThisAction`, so those three are not distinguishable
by error code. -/
theorem claim_c5_error_code_map (p : MigrationProgress) (o : Pubkey)
    (m : MeteoraDammMigrationMetadata) (t : Nat → Bool) :
    (p ≠ MigrationProgress.CreatedPool →
      (claim_lp p o m t).result = Except.error ClaimError.NotPermitToDoThisAction)
    ∧ (o = m.partner → m.partner_claimed = true →
        (claim_lp MigrationProgress.CreatedPool o m t).result
          = Except.error ClaimError.NotPermitToDoThisAction)
    ∧ (o = m.partner → m.partner_claimed = false → m.partner_lp = 0 →
        (claim_lp MigrationProgress.CreatedPool o m t).result
          = Except.error ClaimError.NotPermitToDoThisAction)
    ∧ (o ≠ m.partner → o = m.pool_creator → m.creator_claimed = true →
        (claim_lp MigrationProgress.CreatedPool o m t).result
          = Except.error ClaimError.NotPermitToDoThisAction)
    ∧ (o ≠ m.partner → o = m.pool_creator → m.creator_claimed = false →
        m.creator_lp = 0 →
        (claim_lp MigrationProgress.CreatedPool o m t).result
          = Except.error ClaimError.NotPermitToDoThisAction)
    ∧ (o ≠ m.partner → o ≠ m.pool_creator →
        (claim_lp MigrationProgress.CreatedPool o m t).result
          = Except.error ClaimError.InvalidOwnerAccount)
    ∧ (o = m.partner → m.partner_claimed = false → m.partner_lp ≠ 0 →
        t m.partner_lp = false →
        (claim_lp MigrationProgress.CreatedPool o m t).result
          = Except.error ClaimError.TransferFailed)
    ∧ ClaimError.InvalidOwnerAccount ≠ ClaimError.NotPermitToDoThisAction
    ∧ ClaimError.TransferFailed ≠ ClaimError.NotPermitToDoThisAction
    ∧ ClaimError.TransferFailed ≠ ClaimError.InvalidOwnerAccount := by
  refine ⟨?_, ?_, ?_, ?_, ?_, ?_, ?_, by decide, by decide, by decide⟩
  · intro hp; rw [claim_lp_progress_ne o m t hp]
  · intro ho hc; rw [claim_lp_partner_already t ho hc]
  · intro ho hc hz; rw [claim_lp_partner_zero t ho hc hz]
  · intro hop ho hc; rw [claim_lp_creator_already t hop ho hc]
  · intro hop ho hc hz; rw [claim_lp_creator_zero t hop ho hc hz]
  · intro hop hoc; rw [claim_lp_unauthorized t hop hoc]
  · intro ho hc hz ht; rw [claim_lp_partner_tfail ho hc hz ht]

/-- Concrete instance of the amended C5: the unauthorized-caller code at
a concrete input differs from the shared rejection code. -/
theorem claim_c5_error_code_map_witness :
    (claim_lp MigrationProgress.CreatedPool 7 sampleLedger transfer_always).result
      = Except.error ClaimError.InvalidOwnerAccount :=
  (claim_c5_error_code_map MigrationProgress.CreatedPool 7 sampleLedger
    transfer_always).2.2.2.2.2.1 (by decide) (by decide)

/-- Claim C6: the beneficiary identity is matched against the partner
identity first and only then against the pool creator; whenever the
identity matches the partner — even if it also equals the creator — the
partner branch runs (the creator flag is untouched and any success pays
the partner entitlement); if it matches neither, the invocation fails
with `InvalidOwnerAccount` and changes nothing. -/
theorem claim_c6_role_resolution_order (p : MigrationProgress) (o : Pubkey)
    (m : MeteoraDammMigrationMetadata) (t : Nat → Bool) :
    (p = MigrationProgress.CreatedPool → o ≠ m.partner → o ≠ m.pool_creator →
      claim_lp p o m t = ⟨m, Except.error ClaimError.InvalidOwnerAccount, []⟩)
    ∧ (o = m.partner →
        (claim_lp p o m t).ledger.creator_claimed = m.creator_claimed)
    ∧ (o = m.partner → ∀ a, (claim_lp p o m t).result = Except.ok a →
        a = m.partner_lp) := by
  refine ⟨?_, ?_, ?_⟩
  · intro hp hop hoc
    subst hp
    exact claim_lp_unauthorized t hop hoc
  · intro ho
    rcases claim_lp_cases p o m t with h | h | ⟨h, -⟩ | ⟨h, hop, -⟩ | ⟨h, -⟩ | ⟨h, hop, -⟩ <;>
      first
    | (exact absurd ho hop)
    | (rw [h];
        try simp [MeteoraDammMigrationMetadata.set_partner_claim_status])
  · intro ho a hr
    rcases claim_lp_cases p o m t with h | h | ⟨h, -⟩ | ⟨h, hop, -⟩ | ⟨h, -⟩ | ⟨h, hop, -⟩ <;>
      first
    | (exact absurd ho hop)
    | (rw [h] at hr; simp at hr; omega)
    | (rw [h] at hr; simp at hr)

/-- Concrete instance of C6: an identity equal to both beneficiaries is
served by the partner branch, leaving the creator flag untouched. -/
theorem claim_c6_witness :
    (claim_lp MigrationProgress.CreatedPool 1
        ⟨10, 11, 1, 1, 500, 300, false, false⟩ transfer_always).ledger.creator_claimed
      = (⟨10, 11, 1, 1, 500, 300, false, false⟩ :
          MeteoraDammMigrationMetadata).creator_claimed :=
  (claim_c6_role_resolution_order MigrationProgress.CreatedPool 1
    ⟨10, 11, 1, 1, 500, 300, false, false⟩ transfer_always).2.1 rfl

/-- Claim C7: a role whose entitlement is zero can never claim — even at
the correct checkpoint with the matching identity and an unclaimed flag,
the invocation is rejected, the ledger is unchanged and no transfer is
invoked. -/
theorem claim_c7_zero_entitlement_guard (o : Pubkey)
    (m : MeteoraDammMigrationMetadata) (t : Nat → Bool) :
    (o = m.partner → m.partner_claimed = false → m.partner_lp = 0 →
      claim_lp MigrationProgress.CreatedPool o m t
        = ⟨m, Except.error ClaimError.NotPermitToDoThisAction, []⟩)
    ∧ (o ≠ m.partner → o = m.pool_creator → m.creator_claimed = false →
        m.creator_lp = 0 →
        claim_lp MigrationProgress.CreatedPool o m t
          = ⟨m, Except.error ClaimError.NotPermitToDoThisAction, []⟩) :=
  ⟨fun ho hc hz => claim_lp_partner_zero t ho hc hz,
   fun hop ho hc hz => claim_lp_creator_zero t hop ho hc hz⟩

/-- Concrete instance of C7: an eligible partner with zero entitlement
is rejected and no flag is set. -/
theorem claim_c7_witness :
    claim_lp MigrationProgress.CreatedPool 1
        ⟨10, 11, 1, 2, 0, 300, false, false⟩ transfer_always
      = ⟨⟨10, 11, 1, 2, 0, 300, false, false⟩,
          Except.error ClaimError.NotPermitToDoThisAction, []⟩ :=
  (claim_c7_zero_entitlement_guard 1 ⟨10, 11, 1, 2, 0, 300, false, false⟩
    transfer_always).1 rfl rfl rfl

/-- Claim C8: a successful claim flips exactly the resolved role's flag
from false to true, changes no other ledger field, and transfers exactly
that role's stored entitlement. -/
theorem claim_c8_success_frame (p : MigrationProgress) (o : Pubkey)
    (m : MeteoraDammMigrationMetadata) (t : Nat → Bool) (a : Nat)
    (h : (claim_lp p o m t).result = Except.ok a) :
    (claim_lp p o m t).ledger.lp_mint = m.lp_mint
    ∧ (claim_lp p o m t).ledger.virtual_pool = m.virtual_pool
    ∧ (claim_lp p o m t).ledger.partner = m.partner
    ∧ (claim_lp p o m t).ledger.pool_creator = m.pool_creator
    ∧ (claim_lp p o m t).ledger.partner_lp = m.partner_lp
    ∧ (claim_lp p o m t).ledger.creator_lp = m.creator_lp
    ∧ (((claim_lp p o m t).ledger = m.set_partner_claim_status
        ∧ m.partner_claimed = false
        ∧ (claim_lp p o m t).ledger.partner_claimed = true
        ∧ (claim_lp p o m t).ledger.creator_claimed = m.creator_claimed
        ∧ a = m.partner_lp
        ∧ (claim_lp p o m t).transfers = [m.partner_lp])
      ∨ ((claim_lp p o m t).ledger = m.set_creator_claim_status
          ∧ m.creator_claimed = false
          ∧ (claim_lp p o m t).ledger.creator_claimed = true
          ∧ (claim_lp p o m t).ledger.partner_claimed = m.partner_claimed
          ∧ a = m.creator_lp
          ∧ (claim_lp p o m t).transfers = [m.creator_lp])) := by
  obtain ⟨h1, h2, h3, h4, h5, h6⟩ := claim_lp_preserves_fields p o m t
  refine ⟨h1, h2, h3, h4, h5, h6, ?_⟩
  rcases claim_lp_cases p o m t with hc | hc | ⟨hc, -⟩ | ⟨hc, -⟩ |
      ⟨hc, -, hpc, -⟩ | ⟨hc, -, -, hcc, -⟩
  · rw [hc] at h; simp at h
  · rw [hc] at h; simp at h
  · rw [hc] at h; simp at h
  · rw [hc] at h; simp at h
  · left
    rw [hc] at h ⊢
    simp_all [MeteoraDammMigrationMetadata.set_partner_claim_status]
  · right
    rw [hc] at h ⊢
    simp_all [MeteoraDammMigrationMetadata.set_creator_claim_status]

/-- Concrete instance of C8: the sample partner claim succeeds with
amount 500 and flips only the partner flag. -/
theorem claim_c8_witness :
    (claim_lp MigrationProgress.CreatedPool 1 sampleLedger
        transfer_always).ledger.partner = sampleLedger.partner
    ∧ ((claim_lp MigrationProgress.CreatedPool 1 sampleLedger
        transfer_always).ledger.partner_claimed = true
      ∨ (claim_lp MigrationProgress.CreatedPool 1 sampleLedger
          transfer_always).ledger.creator_claimed = true) := by
  obtain ⟨-, -, h3, -, -, -, hor⟩ :=
    claim_c8_success_frame MigrationProgress.CreatedPool 1 sampleLedger
      transfer_always 500 rfl
  refine ⟨h3, ?_⟩
  rcases hor with ⟨-, -, hp, -⟩ | ⟨-, -, hp, -⟩
  · exact Or.inl hp
  · exact Or.inr hp

/-- Claim C9: the two roles are independent — a partner-branch
invocation never touches the creator flag and vice versa, and on a
ledger where both roles are eligible the two claims succeed in either
order with their own amounts, reaching the same final ledger. -/
theorem claim_c9_role_independence (p : MigrationProgress) (o : Pubkey)
    (m : MeteoraDammMigrationMetadata) (t : Nat → Bool) :
    (o = m.partner →
      (claim_lp p o m t).ledger.creator_claimed = m.creator_claimed)
    ∧ (o ≠ m.partner →
        (claim_lp p o m t).ledger.partner_claimed = m.partner_claimed)
    ∧ (m.partner ≠ m.pool_creator → m.partner_claimed = false →
        m.creator_claimed = false → m.partner_lp ≠ 0 → m.creator_lp ≠ 0 →
        t m.partner_lp = true → t m.creator_lp = true →
        (claim_lp MigrationProgress.CreatedPool m.partner m t).result
            = Except.ok m.partner_lp
        ∧ (claim_lp MigrationProgress.CreatedPool m.pool_creator
              (claim_lp MigrationProgress.CreatedPool m.partner m t).ledger
              t).result = Except.ok m.creator_lp
        ∧ (claim_lp MigrationProgress.CreatedPool m.pool_creator m t).result
            = Except.ok m.creator_lp
        ∧ (claim_lp MigrationProgress.CreatedPool m.partner
              (claim_lp MigrationProgress.CreatedPool m.pool_creator m t).ledger
              t).result = Except.ok m.partner_lp
        ∧ (claim_lp MigrationProgress.CreatedPool m.pool_creator
              (claim_lp MigrationProgress.CreatedPool m.partner m t).ledger
              t).ledger
          = (claim_lp MigrationProgress.CreatedPool m.partner
              (claim_lp MigrationProgress.CreatedPool m.pool_creator m t).ledger
              t).ledger) := by
  refine ⟨?_, ?_, ?_⟩
  · intro ho
    rcases claim_lp_cases p o m t with h | h | ⟨h, -⟩ | ⟨h, hop, -⟩ | ⟨h, -⟩ |
        ⟨h, hop, -⟩ <;>
      first
    | (exact absurd ho hop)
    | (rw [h];
        try simp [MeteoraDammMigrationMetadata.set_partner_claim_status])
  · intro hop
    rcases claim_lp_cases p o m t with h | h | ⟨h, -⟩ | ⟨h, -⟩ | ⟨h, ho, -⟩ |
        ⟨h, -⟩ <;>
      first
    | (exact absurd ho hop)
    | (rw [h];
        try simp [MeteoraDammMigrationMetadata.set_creator_claim_status])
  · intro hne hc1 hc2 hz1 hz2 ht1 ht2
    have e1 := claim_lp_partner_ok (Eq.refl m.partner) hc1 hz1 ht1
    have hop1 : m.pool_creator ≠ (m.set_partner_claim_status).partner :=
      fun hx => hne hx.symm
    have ho1 : m.pool_creator = (m.set_partner_claim_status).pool_creator := rfl
    have hcc1 : (m.set_partner_claim_status).creator_claimed = false := hc2
    have hzz1 : (m.set_partner_claim_status).creator_lp ≠ 0 := hz2
    have htt1 : t (m.set_partner_claim_status).creator_lp = true := ht2
    have e2 := claim_lp_creator_ok hop1 ho1 hcc1 hzz1 htt1
    have hop2 : m.pool_creator ≠ m.partner := fun hx => hne hx.symm
    have e3 := claim_lp_creator_ok hop2 (Eq.refl m.pool_creator) hc2 hz2 ht2
    have ho2 : m.partner = (m.set_creator_claim_status).partner := rfl
    have hcc2 : (m.set_creator_claim_status).partner_claimed = false := hc1
    have hzz2 : (m.set_creator_claim_status).partner_lp ≠ 0 := hz1
    have htt2 : t (m.set_creator_claim_status).partner_lp = true := ht1
    have e4 := claim_lp_partner_ok ho2 hcc2 hzz2 htt2
    have l1 : (claim_lp MigrationProgress.CreatedPool m.partner m t).ledger
        = m.set_partner_claim_status := by rw [e1]
    have l3 : (claim_lp MigrationProgress.CreatedPool m.pool_creator m t).ledger
        = m.set_creator_claim_status := by rw [e3]
    refine ⟨by rw [e1], ?_, by rw [e3], ?_, ?_⟩
    · rw [l1, e2]; rfl
    · rw [l3, e4]; rfl
    · rw [l1, e2, l3, e4]; rfl

/-- Concrete instance of C9: on the sample ledger the partner claim
succeeds with the partner entitlement. -/
theorem claim_c9_witness :
    (claim_lp MigrationProgress.CreatedPool sampleLedger.partner sampleLedger
        transfer_always).result = Except.ok sampleLedger.partner_lp :=
  ((claim_c9_role_independence MigrationProgress.CreatedPool sampleLedger.partner
      sampleLedger transfer_always).2.2 (by decide) rfl rfl (by decide)
    (by decide) rfl rfl).1

/-- A single committed invocation never changes the two beneficiary
identities. -/
lemma claim_step_ids (m : MeteoraDammMigrationMetadata)
    (c : MigrationProgress × Pubkey × (Nat → Bool)) :
    (claim_step m c).partner = m.partner
    ∧ (claim_step m c).pool_creator = m.pool_creator := by
  obtain ⟨-, -, h3, h4, -, -⟩ := claim_lp_preserves_fields c.1 c.2.1 m c.2.2
  exact ⟨h3, h4⟩

/-- On a ledger whose two beneficiary identities coincide, one committed
invocation never changes the creator flag. -/
lemma claim_step_equal_ids_creator (m : MeteoraDammMigrationMetadata)
    (c : MigrationProgress × Pubkey × (Nat → Bool))
    (h : m.partner = m.pool_creator) :
    (claim_step m c).creator_claimed = m.creator_claimed := by
  unfold claim_step
  rcases claim_lp_cases c.1 c.2.1 m c.2.2 with hc | hc | ⟨hc, -⟩ | ⟨hc, -⟩ |
      ⟨hc, -⟩ | ⟨hc, hop, hoc, -⟩
  · rw [hc]
  · rw [hc]
  · rw [hc]
  · rw [hc]
  · rw [hc]
    simp [MeteoraDammMigrationMetadata.set_partner_claim_status]
  · exact absurd (hoc.trans h.symm) hop

/-- On a ledger whose two beneficiary identities coincide, no sequence
of committed invocations changes the creator flag. -/
lemma run_claims_equal_ids_creator
    (cs : List (MigrationProgress × Pubkey × (Nat → Bool))) :
    ∀ m : MeteoraDammMigrationMetadata, m.partner = m.pool_creator →
      (run_claims m cs).creator_claimed = m.creator_claimed := by
  induction cs with
  | nil => intro m _; rfl
  | cons c cs ih =>
    intro m h
    have hids := claim_step_ids m c
    have h2 : (claim_step m c).partner = (claim_step m c).pool_creator := by
      rw [hids.1, hids.2]; exact h
    calc (run_claims m (c :: cs)).creator_claimed
        = (run_claims (claim_step m c) cs).creator_claimed := rfl
      _ = (claim_step m c).creator_claimed := ih (claim_step m c) h2
      _ = m.creator_claimed := claim_step_equal_ids_creator m c h

/-- Claim C10: when the partner identity equals the pool-creator
identity, every claim resolves to the partner branch: one invocation
never changes the creator flag and every success pays the partner
entitlement with only the partner flag set, and no sequence of
invocations ever changes the creator flag. -/
theorem claim_c10_equal_identities_creator_unreachable
    (m : MeteoraDammMigrationMetadata) (h : m.partner = m.pool_creator) :
    (∀ (p : MigrationProgress) (o : Pubkey) (t : Nat → Bool),
      (claim_lp p o m t).ledger.creator_claimed = m.creator_claimed
      ∧ ∀ a, (claim_lp p o m t).result = Except.ok a →
          a = m.partner_lp
          ∧ (claim_lp p o m t).ledger = m.set_partner_claim_status)
    ∧ ∀ cs : List (MigrationProgress × Pubkey × (Nat → Bool)),
        (run_claims m cs).creator_claimed = m.creator_claimed := by
  constructor
  · intro p o t
    constructor
    · exact claim_step_equal_ids_creator m (p, o, t) h
    · intro a ha
      rcases claim_lp_cases p o m t with hc | hc | ⟨hc, -⟩ | ⟨hc, -⟩ |
          ⟨hc, -⟩ | ⟨hc, hop, hoc, -⟩
      · rw [hc] at ha; simp at ha
      · rw [hc] at ha; simp at ha
      · rw [hc] at ha; simp at ha
      · rw [hc] at ha; simp at ha
      · rw [hc] at ha ⊢
        simp at ha
        exact ⟨ha.symm, rfl⟩
      · exact absurd (hoc.trans h.symm) hop
  · intro cs
    exact run_claims_equal_ids_creator cs m h

/-- Concrete instance of C10: with coinciding identities, a successful
claim sequence leaves the creator flag false. -/
theorem claim_c10_witness :
    (run_claims ⟨10, 11, 1, 1, 500, 300, false, false⟩
        [(MigrationProgress.CreatedPool, 1, transfer_always)]).creator_claimed
      = (⟨10, 11, 1, 1, 500, 300, false, false⟩ :
          MeteoraDammMigrationMetadata).creator_claimed :=
  (claim_c10_equal_identities_creator_unreachable
    ⟨10, 11, 1, 1, 500, 300, false, false⟩ rfl).2
    [(MigrationProgress.CreatedPool, 1, transfer_always)]
